import Mathlib

/-
  Verification development for the Evo2 genomic-analysis backend
  (evo2_backend: api_server.py, modal_integration.py, blockchain.py).

  Shallow embedding conventions:
  * Python floats are modelled as rationals (ℚ); every comparison the
    claims touch is far from a binary-representation boundary.
  * DNA sequences and gene names are lists of characters; Python's
    str.upper is Char.toUpper mapped over the list (the alphabet in
    play is ASCII).
  * Python round(x, n) is modelled by pyRound n x, rounding half away
    from zero at the scale 10^n; Python uses banker's rounding, which
    differs only at exact half-ulp ties, none of which occur in the
    claims below.
  * A raised exception is an Except.error; a returned dict is a
    structure whose optional keys are Option fields.
  * External effects (the remote model, the chain RPC, token
    transfers) enter as explicit parameters describing their outcome.
-/

/-- Python round(x, ndigits): scale by 10^ndigits and round to the
nearest integer (half away from zero modelled as half up; the claims
never sit on a half-ulp tie). -/
def pyRound (ndigits : Nat) (x : ℚ) : ℚ :=
  ((Rat.floor (x * 10 ^ ndigits + 1/2) : ℤ) : ℚ) / 10 ^ ndigits

/-! ## SequenceValidator (api_server.py, SequenceAnalysisRequest.validate_sequence) -/

/-- The 16 recognised nucleotide/ambiguity symbols:
valid_chars = set('ATCGNRYSWKMBDHV-') in api_server.py line 60. -/
def valid_chars : List Char :=
  ['A', 'T', 'C', 'G', 'N', 'R', 'Y', 'S', 'W', 'K', 'M', 'B', 'D', 'H', 'V', '-']

/-- api_server.py lines 56-63: reject unless every character,
upper-cased, is in valid_chars; on success return the upper-cased
sequence.  The raised ValueError is the Except.error branch. -/
def validate_sequence (v : List Char) : Except String (List Char) :=
  if v.all (fun c => c.toUpper ∈ valid_chars) then
    Except.ok (v.map Char.toUpper)
  else
    Except.error "Invalid DNA sequence characters"

/-! ## QualityScore and the local fallback scorer
(modal_integration.py, ModalEvo2Client._create_local_fallback_result) -/

/-- QualityScore record (api_server.py lines 65-69). -/
structure QualityScore where
  overall_score : ℚ
  confidence : ℚ
  variant_impact : String
  functional_prediction : String
deriving Repr, DecidableEq

/-- The dict returned by the scorers in modal_integration.py, with the
nested keys the claims need flattened: quality_score,
analysis_method (from the gene annotation map), the three score
components (from analysis_metrics), and processing_successful. -/
structure ModalResult where
  quality_score : QualityScore
  analysis_method : String
  length_score : ℚ
  gc_score : ℚ
  complexity_score : ℚ
  processing_successful : Bool
deriving Repr, DecidableEq

/-- The notable-gene list of modal_integration.py line 184. -/
def notable_genes : List (List Char) :=
  ["BRCA1".toList, "BRCA2".toList, "TP53".toList, "EGFR".toList]

/-- modal_integration.py line 184: gene_name and gene_name.upper() in
the notable-gene list (a missing or empty gene name is falsy and gets
no bonus; the empty string is not in the list, so the two agree). -/
def is_notable_gene (gene_name : Option (List Char)) : Bool :=
  match gene_name with
  | none => false
  | some g => (g.map Char.toUpper) ∈ notable_genes

/-- gc_content = (count 'G' + count 'C') / length, 0 on the empty
sequence (modal_integration.py line 175). -/
def fallback_gc_content (sequence : List Char) : ℚ :=
  if sequence.length = 0 then 0
  else ((sequence.count 'G' : ℚ) + (sequence.count 'C' : ℚ)) / (sequence.length : ℚ)

/-- length_score = min(length / 2000, 1.0) * 35
(modal_integration.py line 179). -/
def fallback_length_score (sequence : List Char) : ℚ :=
  min ((sequence.length : ℚ) / 2000) 1 * 35

/-- gc_score = (1 - abs(gc_content - 0.5) * 2) * 30
(modal_integration.py line 180). -/
def fallback_gc_score (sequence : List Char) : ℚ :=
  (1 - |fallback_gc_content sequence - 1/2| * 2) * 30

/-- complexity_score = complexity * 35 where
complexity = len(set(sequence)) / 4 (modal_integration.py lines
176 and 181).  Note: no min cap is applied on this path. -/
def fallback_complexity_score (sequence : List Char) : ℚ :=
  ((sequence.dedup.length : ℚ) / 4) * 35

/-- modal_integration.py lines 172-220, the local fallback scorer. -/
def create_local_fallback_result (sequence : List Char) (gene_name : Option (List Char)) :
    ModalResult :=
  let length_score := fallback_length_score sequence
  let gc_score := fallback_gc_score sequence
  let complexity_score := fallback_complexity_score sequence
  let base_overall := length_score + gc_score + complexity_score
  let overall_score :=
    if is_notable_gene gene_name then base_overall + 5 else base_overall
  let confidence := min (overall_score / 100) (95/100)
  let variant_impact :=
    if overall_score > 85 then "high"
    else if overall_score > 65 then "moderate"
    else "low"
  let functional_prediction :=
    if overall_score > 85 then "likely_pathogenic"
    else if overall_score > 65 then "uncertain_significance"
    else "likely_benign"
  { quality_score :=
      { overall_score := pyRound 2 (min overall_score 100)
        confidence := pyRound 3 (min confidence 1)
        variant_impact := variant_impact
        functional_prediction := functional_prediction }
    analysis_method := "local_fallback"
    length_score := pyRound 2 length_score
    gc_score := pyRound 2 gc_score
    complexity_score := pyRound 2 complexity_score
    processing_successful := true }

/-! ## The mock scorer inside api_server.call_modal_function
(api_server.py lines 109-134); unlike the fallback above it caps the
complexity term with a min. -/

/-- complexity_score = min(len(set(sequence)) / 4, 1.0) * 40
(api_server.py line 116). -/
def api_mock_complexity_score (sequence : List Char) : ℚ :=
  min ((sequence.dedup.length : ℚ) / 4) 1 * 40

/-- length_score = min(len(sequence) / 1000, 1.0) * 30
(api_server.py line 114). -/
def api_mock_length_score (sequence : List Char) : ℚ :=
  min ((sequence.length : ℚ) / 1000) 1 * 30

/-- gc_score = (1 - abs(gc_content - 0.5) * 2) * 30
(api_server.py line 115). -/
def api_mock_gc_score (sequence : List Char) : ℚ :=
  (1 - |fallback_gc_content sequence - 1/2| * 2) * 30

/-- The quality-score dict built by api_server.call_modal_function for
function_name = "analyze_sequence" (api_server.py lines 109-134). -/
def call_modal_function_quality (sequence : List Char) : QualityScore :=
  let overall_score :=
    api_mock_length_score sequence + api_mock_gc_score sequence +
      api_mock_complexity_score sequence
  { overall_score := pyRound 2 overall_score
    confidence := pyRound 3 (min (overall_score / 100) (95/100))
    variant_impact := if overall_score > 60 then "moderate" else "low"
    functional_prediction := if overall_score > 80 then "likely_pathogenic" else "uncertain" }

/-! ## Evaluation bridge for pyRound -/

/-- Rat.floor is the FloorRing floor on ℚ, so pyRound can be evaluated
with norm_num. -/
theorem pyRound_eq (n : Nat) (x : ℚ) :
    pyRound n x = ((⌊x * 10 ^ n + 1/2⌋ : ℤ) : ℚ) / 10 ^ n := rfl

/-! ## AnalysisResult and the in-memory store
(api_server.py lines 71-96 and 86-87: analysis_results is a plain
Python dict held in process memory) -/

/-- AnalysisResult record (api_server.py lines 71-79); the free-form
metadata map keeps only the fields the claims touch (gene name and
sequence length), and datetime timestamps are modelled as naturals. -/
structure AnalysisResult where
  analysis_id : String
  sequence_hash : String
  quality_score : QualityScore
  gene_name : Option (List Char)
  sequence_length : Nat
  timestamp : Nat
  ready_for_minting : Bool
deriving Repr, DecidableEq

/-- The analysis_results dict: key-value pairs in insertion order,
keys unique by construction. -/
abbrev AnalysisStore := List (String × AnalysisResult)

/-- Python dict assignment d[key] = val: replace the value in place
when the key is present, append otherwise.  There is no duplicate
check anywhere in api_server.py: line 223 is a bare assignment. -/
def dict_set (store : AnalysisStore) (key : String) (val : AnalysisResult) : AnalysisStore :=
  match store with
  | [] => [(key, val)]
  | p :: rest => if p.1 = key then (key, val) :: rest else p :: dict_set rest key val

/-- Python dict lookup d.get(key) / key in d. -/
def dict_get (store : AnalysisStore) (key : String) : Option AnalysisResult :=
  (store.find? (fun p => p.1 = key)).map (fun p => p.2)

/-- Python d.values() in insertion order. -/
def dict_values (store : AnalysisStore) : List AnalysisResult :=
  store.map (fun p => p.2)

/-! ## The analyze handler (api_server.py lines 164-231) -/

/-- api_server.analyze_sequence: the generated identifier, the SHA256
sequence hash and the wall-clock timestamp are opaque inputs here, and
the remote-or-fallback analysis outcome is passed in explicitly.  On
processing_successful the handler builds the AnalysisResult with
ready_for_minting = (overall_score >= 60) (lines 203-204) and stores
it under the identifier (line 223); otherwise it raises a 500,
modelled as none with the store unchanged. -/
def analyze_sequence (store : AnalysisStore) (analysis_id sequence_hash : String)
    (sequence : List Char) (gene_name : Option (List Char))
    (modal_result : ModalResult) (timestamp : Nat) :
    AnalysisStore × Option AnalysisResult :=
  if modal_result.processing_successful then
    let result : AnalysisResult :=
      { analysis_id := analysis_id
        sequence_hash := sequence_hash
        quality_score := modal_result.quality_score
        gene_name := gene_name
        sequence_length := sequence.length
        timestamp := timestamp
        ready_for_minting := decide (60 ≤ modal_result.quality_score.overall_score) }
    (dict_set store analysis_id result, some result)
  else
    (store, none)

/-! ## Listing (api_server.py lines 241-247) -/

/-- Newest-first order on results: sorted(key=lambda x: x.timestamp,
reverse=True). -/
def ts_desc (a b : AnalysisResult) : Prop := b.timestamp ≤ a.timestamp

instance : DecidableRel ts_desc := fun a b => Nat.decLe b.timestamp a.timestamp

instance : IsTotal AnalysisResult ts_desc :=
  ⟨fun a b => le_total b.timestamp a.timestamp⟩

instance : IsTrans AnalysisResult ts_desc :=
  ⟨fun _ _ _ h1 h2 => le_trans h2 h1⟩

/-- api_server.list_analyses: sort the stored values newest first and
return the Python slice [offset : offset + limit].  CPython sorted is
a stable sort, and insertion sort over the reflexive total order
ts_desc computes the same stable result. -/
def list_analyses (store : AnalysisStore) (limit offset : Nat) : List AnalysisResult :=
  (((dict_values store).insertionSort ts_desc).drop offset).take limit

/-! ## Blockchain integration (blockchain.py)

The chain itself is external: the outcome of the single mint
transaction and of each token transfer enters as a parameter. -/

/-- Outcome of the mint transaction as seen through web3: either a
confirmed receipt (hash, extracted token id, gas, block) or any
failure on the transaction path (revert, timeout, RPC error), which
blockchain.py lines 210-215 catches as a generic exception. -/
inductive LedgerResult where
  | confirmed (txHash : String) (tokenId : Nat) (gasUsed : Nat) (blockNumber : Nat)
  | failed (error : String)
deriving Repr, DecidableEq

/-- The dict returned by BlockchainIntegration.mint_genomic_nft
(blockchain.py lines 200-215): success/failure branches carry
different keys, so absent keys are none. -/
structure MintDict where
  success : Bool
  transaction_hash : Option String
  token_id : Option Nat
  gas_used : Option Nat
  block_number : Option Nat
  error : Option String
deriving Repr, DecidableEq

/-- blockchain.py lines 125-215.  With no account configured the
function raises ValueError before entering its try block
(Except.error); any transaction-path failure is caught inside and
returned as a success = False dict carrying the error string -- no
exception type of its own is raised for a reverted transaction. -/
def mint_genomic_nft (hasAccount : Bool) (ledger : LedgerResult) : Except String MintDict :=
  if !hasAccount then
    Except.error "No private key configured for transactions"
  else
    match ledger with
    | LedgerResult.confirmed tx tid gas blk =>
        Except.ok { success := true, transaction_hash := some tx, token_id := some tid,
                    gas_used := some gas, block_number := some blk, error := none }
    | LedgerResult.failed e =>
        Except.ok { success := false, transaction_hash := none, token_id := none,
                    gas_used := none, block_number := none, error := some e }

/-- The dict returned by process_nft_minting_with_blockchain
(blockchain.py lines 306-352).  Its success branch copies
success/hash/token/gas from the mint dict and drops the mint dict's
error string; its except branch reports only the exception text. -/
structure BlockchainMintResult where
  minting_successful : Bool
  transaction_hash : Option String
  token_id : Option Nat
  gas_used : Option Nat
  ipfs_uri : Option String
  error : Option String
deriving Repr, DecidableEq

/-- blockchain.py lines 306-352: metadata creation and the mock IPFS
upload never fail, so the only exception reaching the except branch is
the ValueError for a missing signing key. -/
def process_nft_minting_with_blockchain (hasAccount : Bool) (ledger : LedgerResult)
    (ipfs_uri : String) : BlockchainMintResult :=
  match mint_genomic_nft hasAccount ledger with
  | Except.ok d =>
      { minting_successful := d.success, transaction_hash := d.transaction_hash,
        token_id := d.token_id, gas_used := d.gas_used,
        ipfs_uri := some ipfs_uri, error := none }
  | Except.error e =>
      { minting_successful := false, transaction_hash := none, token_id := none,
        gas_used := none, ipfs_uri := none, error := some e }

/-- REWARD_AMOUNTS (blockchain.py lines 31-37), the entries the mint
flow uses. -/
def REWARD_ANALYSIS : ℚ := 10
def REWARD_NFT_MINT : ℚ := 5
def REWARD_QUALITY_BONUS : ℚ := 20

/-- One reward leg as returned by the RewardSystem.distribute_*
functions: the success dict carries the amounts and the transfer hash,
the except branch only the error text. -/
structure RewardLeg where
  success : Bool
  reward_amount : Option ℚ
  base_reward : Option ℚ
  quality_bonus : Option ℚ
  transaction_hash : Option String
  error : Option String
deriving Repr, DecidableEq

/-- blockchain.py lines 362-385, RewardSystem.distribute_analysis_reward.
The transfer outcome (hash or exception text) is the parameter.  Note
the bonus test quality_score > 0.8 receives the 0-100 overall score at
its call site. -/
def distribute_analysis_reward (transfer : Except String String) (quality_score : ℚ) :
    RewardLeg :=
  let base_reward := REWARD_ANALYSIS
  let quality_bonus := if quality_score > 4/5 then REWARD_QUALITY_BONUS else 0
  let total_reward := base_reward + quality_bonus
  match transfer with
  | Except.ok tx =>
      { success := true, reward_amount := some total_reward,
        base_reward := some base_reward, quality_bonus := some quality_bonus,
        transaction_hash := some tx, error := none }
  | Except.error e =>
      { success := false, reward_amount := none, base_reward := none,
        quality_bonus := none, transaction_hash := none, error := some e }

/-- blockchain.py lines 387-402, RewardSystem.distribute_nft_mint_reward. -/
def distribute_nft_mint_reward (transfer : Except String String) : RewardLeg :=
  match transfer with
  | Except.ok tx =>
      { success := true, reward_amount := some REWARD_NFT_MINT,
        base_reward := none, quality_bonus := none,
        transaction_hash := some tx, error := none }
  | Except.error e =>
      { success := false, reward_amount := none, base_reward := none,
        quality_bonus := none, transaction_hash := none, error := some e }

/-- The rewards dict attached by process_nft_minting_with_rewards
(blockchain.py lines 514-521). -/
structure RewardsSummary where
  analysis_reward : RewardLeg
  mint_reward : RewardLeg
  total_tokens_earned : ℚ
deriving Repr, DecidableEq

/-- Result of process_nft_minting_with_rewards: the blockchain mint
result plus, on a successful mint only, the rewards dict. -/
structure MintWithRewardsResult where
  minting_successful : Bool
  transaction_hash : Option String
  token_id : Option Nat
  gas_used : Option Nat
  ipfs_uri : Option String
  rewards : Option RewardsSummary
deriving Repr, DecidableEq

/-- blockchain.py lines 488-527.  The mint leg goes through the global
instance (hasGlobalAccount: PRIVATE_KEY present); rewards are only
distributed when minting_successful, each leg with its own transfer
outcome, and total_tokens_earned sums the two reward_amount values
with .get(..., 0) defaulting for a failed leg.  The mint is never
rolled back on a reward failure. -/
def process_nft_minting_with_rewards (analysis_overall_score : ℚ)
    (hasGlobalAccount : Bool) (ledger : LedgerResult) (ipfs_uri : String)
    (analysisTransfer mintTransfer : Except String String) : MintWithRewardsResult :=
  let mint_result := process_nft_minting_with_blockchain hasGlobalAccount ledger ipfs_uri
  if mint_result.minting_successful then
    let analysis_reward := distribute_analysis_reward analysisTransfer analysis_overall_score
    let mint_reward := distribute_nft_mint_reward mintTransfer
    { minting_successful := mint_result.minting_successful
      transaction_hash := mint_result.transaction_hash
      token_id := mint_result.token_id
      gas_used := mint_result.gas_used
      ipfs_uri := mint_result.ipfs_uri
      rewards := some
        { analysis_reward := analysis_reward
          mint_reward := mint_reward
          total_tokens_earned :=
            analysis_reward.reward_amount.getD 0 + mint_reward.reward_amount.getD 0 } }
  else
    { minting_successful := mint_result.minting_successful
      transaction_hash := mint_result.transaction_hash
      token_id := mint_result.token_id
      gas_used := mint_result.gas_used
      ipfs_uri := mint_result.ipfs_uri
      rewards := none }

/-- blockchain.py lines 217-224, BlockchainIntegration.get_token_balance:
the balanceOf call outcome per address is the ledger parameter; any
failure is caught and 0 returned. -/
def get_token_balance (ledger : String → Except String Nat) (address : String) : Nat :=
  match ledger address with
  | Except.ok balance => balance
  | Except.error _ => 0

/-! ## The mint endpoint (api_server.py lines 249-335) -/

/-- The part of the mint-nft HTTP response the claims touch.  An
HTTPException carries status and detail; the handler's normal return
is a 200 JSON body whose reward fields read the rewards dict with
.get(..., default) chains. -/
structure MintNftResponse where
  status : Nat
  message : Option String
  detail : Option String
  total_tokens_earned : ℚ
  analysis_reward_amount : ℚ
  mint_reward_amount : ℚ
  quality_bonus : ℚ
  analysis_tx : Option String
  mint_tx : Option String
  nft_transaction_hash : Option String
  nft_token_id : Option Nat
deriving Repr, DecidableEq

/-- api_server.mint_nft (lines 249-335).  Parameters:
hasBlockchainKey mirrors BLOCKCHAIN_PRIVATE_KEY being set (choosing
the rewards path, whose client always has an account),
hasGlobalAccount mirrors PRIVATE_KEY for the global instance used by
the mint leg on both paths, and the ledger/transfer outcomes are the
external effects.  404 when the analysis id is unknown (line 258), 400
when ready_for_minting is false (lines 262-266); otherwise the handler
returns the 200 success body unconditionally -- it never inspects
minting_successful.  The 400 detail string interpolates the actual
score in the source; the constant prefix stands for it here, since no
claim reads the interpolated number. -/
def mint_nft (store : AnalysisStore) (analysis_id : String)
    (hasBlockchainKey hasGlobalAccount : Bool) (ledger : LedgerResult) (ipfs_uri : String)
    (analysisTransfer mintTransfer : Except String String) : MintNftResponse :=
  match dict_get store analysis_id with
  | none =>
      { status := 404, message := none, detail := some "Analysis not found",
        total_tokens_earned := 0, analysis_reward_amount := 0, mint_reward_amount := 0,
        quality_bonus := 0, analysis_tx := none, mint_tx := none,
        nft_transaction_hash := none, nft_token_id := none }
  | some analysis =>
      if !analysis.ready_for_minting then
        { status := 400, message := none,
          detail := some "Analysis quality score below minting threshold (60)",
          total_tokens_earned := 0, analysis_reward_amount := 0, mint_reward_amount := 0,
          quality_bonus := 0, analysis_tx := none, mint_tx := none,
          nft_transaction_hash := none, nft_token_id := none }
      else
        let minting_result :=
          if !hasBlockchainKey then
            let m := process_nft_minting_with_blockchain hasGlobalAccount ledger ipfs_uri
            { minting_successful := m.minting_successful
              transaction_hash := m.transaction_hash
              token_id := m.token_id
              gas_used := m.gas_used
              ipfs_uri := m.ipfs_uri
              rewards := none : MintWithRewardsResult }
          else
            process_nft_minting_with_rewards analysis.quality_score.overall_score
              hasGlobalAccount ledger ipfs_uri analysisTransfer mintTransfer
        let rewards_info := minting_result.rewards
        { status := 200
          message := some "NFT minted successfully with automated rewards"
          detail := none
          total_tokens_earned := (rewards_info.map (fun r => r.total_tokens_earned)).getD 0
          analysis_reward_amount :=
            (rewards_info.map (fun r => r.analysis_reward.reward_amount.getD 0)).getD 0
          mint_reward_amount :=
            (rewards_info.map (fun r => r.mint_reward.reward_amount.getD 0)).getD 0
          quality_bonus :=
            (rewards_info.map (fun r => r.analysis_reward.quality_bonus.getD 0)).getD 0
          analysis_tx := rewards_info.bind (fun r => r.analysis_reward.transaction_hash)
          mint_tx := rewards_info.bind (fun r => r.mint_reward.transaction_hash)
          nft_transaction_hash := minting_result.transaction_hash
          nft_token_id := minting_result.token_id }

/-! ## Helper lemmas about the dict model -/

/-- Every pair of dict_set store key val is the new pair or one of the
old store. -/
theorem mem_dict_set {p : String × AnalysisResult} :
    ∀ {store : AnalysisStore} {key : String} {val : AnalysisResult},
      p ∈ dict_set store key val → p = (key, val) ∨ p ∈ store := by
  intro store
  induction store with
  | nil =>
      intro key val hp
      simp only [dict_set, List.mem_singleton] at hp
      exact Or.inl hp
  | cons q rest ih =>
      intro key val hp
      simp only [dict_set] at hp
      by_cases h : q.1 = key
      · rw [if_pos h] at hp
        rcases List.mem_cons.mp hp with h1 | h1
        · exact Or.inl h1
        · exact Or.inr (List.mem_cons_of_mem q h1)
      · rw [if_neg h] at hp
        rcases List.mem_cons.mp hp with h1 | h1
        · exact Or.inr (h1 ▸ List.mem_cons_self q rest)
        · rcases ih h1 with h2 | h2
          · exact Or.inl h2
          · exact Or.inr (List.mem_cons_of_mem q h2)

/-- Looking up the key just written returns the value just written. -/
theorem dict_get_dict_set_self (store : AnalysisStore) (key : String) (val : AnalysisResult) :
    dict_get (dict_set store key val) key = some val := by
  induction store with
  | nil => simp [dict_set, dict_get]
  | cons q rest ih =>
      by_cases h : q.1 = key
      · simp [dict_set, h, dict_get]
      · simp only [dict_set, h, if_neg, not_false_iff]
        simpa [dict_get, List.find?, h] using ih

/-- Writing to a key already present keeps the store's size: the entry
is replaced in place, nothing is appended. -/
theorem dict_set_length_of_contains (store : AnalysisStore) (key : String)
    (val : AnalysisResult) (h : store.any (fun p => p.1 = key) = true) :
    (dict_set store key val).length = store.length := by
  induction store with
  | nil => simp at h
  | cons q rest ih =>
      by_cases hq : q.1 = key
      · simp [dict_set, hq]
      · have hrest : rest.any (fun p => p.1 = key) = true := by
          simpa [List.any_cons, hq] using h
        simp [dict_set, hq, ih hrest]

/-- Writing a fresh key appends the pair at the end. -/
theorem dict_set_append_of_not_contains (store : AnalysisStore) (key : String)
    (val : AnalysisResult) (h : store.any (fun p => p.1 = key) = false) :
    dict_set store key val = store ++ [(key, val)] := by
  induction store with
  | nil => simp [dict_set]
  | cons q rest ih =>
      have hq : ¬ q.1 = key := by
        intro hk
        simp [List.any_cons, hk] at h
      have hrest : rest.any (fun p => p.1 = key) = false := by
        simpa [List.any_cons, hq] using h
      simp [dict_set, hq, ih hrest]

/-! ## Concrete demonstration inputs -/

/-- The end-to-end example sequence of the spec. -/
def demo_seq : List Char := "ATCGATCGATCGATCG".toList

/-- A validated 10-symbol sequence with five distinct symbols. -/
def five_symbol_seq : List Char := "ATCGNATCGN".toList

/-- A quality score above the minting threshold. -/
def demo_quality_high : QualityScore :=
  { overall_score := 70, confidence := 7/10,
    variant_impact := "moderate", functional_prediction := "uncertain_significance" }

/-- A quality score below the minting threshold. -/
def demo_quality_low : QualityScore :=
  { overall_score := 50, confidence := 1/2,
    variant_impact := "low", functional_prediction := "likely_benign" }

/-- A stored result eligible for minting. -/
def demo_result_high : AnalysisResult :=
  { analysis_id := "a1", sequence_hash := "h1", quality_score := demo_quality_high,
    gene_name := none, sequence_length := 16, timestamp := 1, ready_for_minting := true }

/-- A stored result not eligible for minting. -/
def demo_result_low : AnalysisResult :=
  { analysis_id := "a1", sequence_hash := "h2", quality_score := demo_quality_low,
    gene_name := none, sequence_length := 16, timestamp := 2, ready_for_minting := false }

/-- The fallback analysis outcome for the example sequence. -/
def demo_modal : ModalResult := create_local_fallback_result demo_seq none

/-- The fallback scorer marks its outcome processing_successful. -/
theorem demo_modal_processing : demo_modal.processing_successful = true := rfl

/-- Evaluation of the fallback score on the example sequence:
length_score 16/2000*35 = 0.28, gc_score 30 (gc exactly 0.5),
complexity_score 35 (4 distinct symbols), total 65.28. -/
theorem demo_modal_overall : demo_modal.quality_score.overall_score = 6528/100 := by
  have hc : (demo_seq.count 'G') = 4 := by decide
  have hc2 : (demo_seq.count 'C') = 4 := by decide
  have hl : (demo_seq.length) = 16 := by decide
  have hd : (demo_seq.dedup.length) = 4 := by decide
  simp only [demo_modal, create_local_fallback_result, fallback_length_score,
    fallback_gc_score, fallback_gc_content, fallback_complexity_score, is_notable_gene,
    pyRound_eq, hc, hc2, hl, hd]
  norm_num

/-! ## Claim C1 -/

/-- Claim C1: for every stored AnalysisResult, ready_for_minting is
true iff quality_score.overall_score is at least 60.  The analyze
handler sets the flag exactly that way on the result it returns
(api_server.py lines 203-204), and a store in which every entry
satisfies the equivalence still satisfies it after the handler's
write: the store only ever gains results through this handler. -/
theorem ready_for_minting_iff_score_ge_60 (store : AnalysisStore)
    (aid shash : String) (sequence : List Char) (gene : Option (List Char))
    (m : ModalResult) (ts : Nat)
    (hstore : ∀ p ∈ store,
      (p.2.ready_for_minting = true ↔ 60 ≤ p.2.quality_score.overall_score)) :
    (∀ r, (analyze_sequence store aid shash sequence gene m ts).2 = some r →
      (r.ready_for_minting = true ↔ 60 ≤ r.quality_score.overall_score)) ∧
    (∀ p ∈ (analyze_sequence store aid shash sequence gene m ts).1,
      (p.2.ready_for_minting = true ↔ 60 ≤ p.2.quality_score.overall_score)) := by
  unfold analyze_sequence
  by_cases hm : m.processing_successful = true
  · simp only [hm, if_true]
    constructor
    · intro r hr
      have hr2 := (Option.some.injEq _ _).mp hr.symm
      rw [hr2]
      simp [decide_eq_true_iff]
    · intro p hp
      rcases mem_dict_set hp with h1 | h1
      · rw [h1]
        simp [decide_eq_true_iff]
      · exact hstore p h1
  · simp only [Bool.not_eq_true] at hm
    simp only [hm, Bool.false_eq_true, if_false]
    exact ⟨fun r hr => by simp at hr, hstore⟩

/-- Witness for C1: analyzing the example sequence from the empty
store at a concrete identifier. -/
theorem ready_for_minting_iff_score_ge_60_witness :
    (∀ r, (analyze_sequence [] "a1" "h1" demo_seq none demo_modal 1).2 = some r →
      (r.ready_for_minting = true ↔ 60 ≤ r.quality_score.overall_score)) ∧
    (∀ p ∈ (analyze_sequence [] "a1" "h1" demo_seq none demo_modal 1).1,
      (p.2.ready_for_minting = true ↔ 60 ≤ p.2.quality_score.overall_score)) :=
  ready_for_minting_iff_score_ge_60 [] "a1" "h1" demo_seq none demo_modal 1
    (by intro p hp; simp at hp)

/-! ## Claim C2 -/

/-- The store after analyzing the example sequence with the locally
computed fallback score. -/
def demo_store2 : AnalysisStore :=
  (analyze_sequence [] "a1" "h1" demo_seq none demo_modal 1).1

/-- Claim C2 counterexample: the claim asserts the locally computed
score for "ATCGATCGATCGATCG" falls below 60, ready_for_minting is
false and the subsequent mint request fails with 400.  In fact the
fallback computes 0.28 + 30 + 35 = 65.28, so the conjunction is false:
already its first clause fails. -/
theorem example_sequence_below_threshold_counterexample :
    ¬ (demo_modal.quality_score.overall_score < 60 ∧
       (analyze_sequence [] "a1" "h1" demo_seq none demo_modal 1).2.map
         (fun r => r.ready_for_minting) = some false ∧
       (mint_nft demo_store2 "a1" true true (LedgerResult.confirmed "0xtx" 1 21000 100)
         "ipfs://Qm" (Except.ok "0xa") (Except.ok "0xb")).status = 400) := by
  intro h
  have h1 := h.1
  rw [demo_modal_overall] at h1
  norm_num at h1

/-- Claim C2 amended: the locally computed overall score for
"ATCGATCGATCGATCG" with no gene name is 65.28, at or above the 60 mint
threshold, so the analysis result has ready_for_minting true and a
subsequent mint request for that analysis id does not fail with 400 --
it reaches the mint path and returns the 200 response. -/
theorem example_sequence_above_threshold_amended :
    demo_modal.quality_score.overall_score = 6528/100 ∧
    60 ≤ demo_modal.quality_score.overall_score ∧
    (analyze_sequence [] "a1" "h1" demo_seq none demo_modal 1).2.map
      (fun r => r.ready_for_minting) = some true ∧
    (mint_nft demo_store2 "a1" true true (LedgerResult.confirmed "0xtx" 1 21000 100)
       "ipfs://Qm" (Except.ok "0xa") (Except.ok "0xb")).status = 200 := by
  have hs : demo_modal.quality_score.overall_score = 6528/100 := demo_modal_overall
  have hge : (60:ℚ) ≤ demo_modal.quality_score.overall_score := by rw [hs]; norm_num
  have hdec : decide (60 ≤ demo_modal.quality_score.overall_score) = true :=
    decide_eq_true hge
  refine ⟨hs, hge, ?_, ?_⟩
  · simp [analyze_sequence, demo_modal_processing, hdec]
  · simp [demo_store2, analyze_sequence, demo_modal_processing, mint_nft,
      dict_set, dict_get, List.find?, hdec]

/-! ## Claim C3 -/

/-- Claim C3 counterexample: for the validated sequence "ATCGNATCGN"
(five distinct symbols) the fallback scorer computes
complexity_score = (5/4) * 35 = 43.75, above both 35 and 40, so the
claimed min(distinct/4, 1) cap does not hold on this path. -/
theorem complexity_score_cap_counterexample :
    validate_sequence five_symbol_seq = Except.ok five_symbol_seq ∧
    fallback_complexity_score five_symbol_seq = 4375/100 ∧
    ¬ (fallback_complexity_score five_symbol_seq ≤ 40) ∧
    (create_local_fallback_result five_symbol_seq none).complexity_score = 4375/100 := by
  have hd : (five_symbol_seq.dedup.length) = 5 := by decide
  refine ⟨rfl, ?_, ?_, ?_⟩
  · simp only [fallback_complexity_score, hd]
    norm_num
  · simp only [fallback_complexity_score, hd]
    norm_num
  · simp only [create_local_fallback_result, fallback_complexity_score, pyRound_eq, hd]
    norm_num

/-- Claim C3 amended: only the mock scorer inside
api_server.call_modal_function computes complexity_score as
min(distinct/4, 1) * 40 and is therefore bounded by its weight; the
local fallback scorer in modal_integration computes
(distinct/4) * 35 with no cap, so its complexity_score exceeds 35
whenever the sequence has more than four distinct symbols. -/
theorem complexity_score_cap_amended (sequence : List Char) :
    api_mock_complexity_score sequence ≤ 40 ∧
    fallback_complexity_score sequence = ((sequence.dedup.length : ℚ) / 4) * 35 ∧
    (4 < sequence.dedup.length → 35 < fallback_complexity_score sequence) := by
  refine ⟨?_, rfl, ?_⟩
  · unfold api_mock_complexity_score
    have h1 : min ((sequence.dedup.length : ℚ) / 4) 1 ≤ 1 := min_le_right _ _
    nlinarith
  · intro h
    unfold fallback_complexity_score
    have h5 : (5:ℚ) ≤ (sequence.dedup.length : ℚ) := by exact_mod_cast h
    nlinarith

/-! ## Claim C4 -/

/-- Claim C4 counterexample: putting a second result under an
identifier already present succeeds and silently replaces the stored
value -- there is no DuplicateKeyError anywhere in the store
(api_server.py line 223 is a bare dict assignment). -/
theorem duplicate_put_counterexample :
    dict_set (dict_set [] "a1" demo_result_high) "a1" demo_result_low =
      [("a1", demo_result_low)] ∧
    dict_get (dict_set (dict_set [] "a1" demo_result_high) "a1" demo_result_low) "a1" =
      some demo_result_low ∧
    demo_result_high ≠ demo_result_low := by
  refine ⟨rfl, rfl, ?_⟩
  intro h
  have ht := congrArg AnalysisResult.timestamp h
  simp [demo_result_high, demo_result_low] at ht

/-- Claim C4 amended: put(id, result) always succeeds; when the id is
already present it overwrites the stored entry in place (the lookup
afterwards returns the new value and the store size is unchanged), and
when it is absent the pair is appended.  Key uniqueness is not
enforced by the store, only by the callers' generated identifiers. -/
theorem put_overwrites_amended (store : AnalysisStore) (key : String) (val : AnalysisResult) :
    dict_get (dict_set store key val) key = some val ∧
    (store.any (fun p => p.1 = key) = true →
      (dict_set store key val).length = store.length) ∧
    (store.any (fun p => p.1 = key) = false →
      dict_set store key val = store ++ [(key, val)]) :=
  ⟨dict_get_dict_set_self store key val,
   dict_set_length_of_contains store key val,
   dict_set_append_of_not_contains store key val⟩

/-! ## Claim C5 -/

/-- A store holding one eligible analysis under "a1". -/
def demo_store5 : AnalysisStore := [("a1", demo_result_high)]

/-- Claim C5 counterexample: with an eligible analysis and a ledger
that rejects the transaction, mint_genomic_nft returns a normal
success = False dict carrying the error string (no exception is
raised for a reverted transaction), and the HTTP endpoint returns 200
with the success message -- not 500 with the underlying reason. -/
theorem mint_failure_counterexample :
    mint_genomic_nft true (LedgerResult.failed "execution reverted") =
      Except.ok { success := false, transaction_hash := none, token_id := none,
                  gas_used := none, block_number := none,
                  error := some "execution reverted" } ∧
    (mint_nft demo_store5 "a1" true true (LedgerResult.failed "execution reverted")
      "ipfs://Qm" (Except.ok "0xa") (Except.ok "0xb")).status = 200 ∧
    ¬ ((mint_nft demo_store5 "a1" true true (LedgerResult.failed "execution reverted")
      "ipfs://Qm" (Except.ok "0xa") (Except.ok "0xb")).status = 500) := by
  refine ⟨rfl, rfl, ?_⟩
  intro h
  have h200 : (mint_nft demo_store5 "a1" true true
      (LedgerResult.failed "execution reverted") "ipfs://Qm"
      (Except.ok "0xa") (Except.ok "0xb")).status = 200 := rfl
  rw [h200] at h
  norm_num at h

/-- Claim C5 amended: when the ledger mint transaction fails (revert
or timeout), mint_genomic_nft catches the failure and returns a dict
with success false and the error string instead of raising; with the
signing key absent it raises ValueError (not a MintTransactionError,
which exists nowhere in the code).  On the HTTP path the failure
information is swallowed: the endpoint still returns 200 with the
success message, no transaction hash and zero tokens, never a 500
carrying the reason. -/
theorem mint_failure_amended (store : AnalysisStore) (aid : String)
    (analysis : AnalysisResult) (err ipfs : String)
    (atf mtf : Except String String)
    (hget : dict_get store aid = some analysis)
    (hready : analysis.ready_for_minting = true) :
    (mint_nft store aid true true (LedgerResult.failed err) ipfs atf mtf).status = 200 ∧
    (mint_nft store aid true true (LedgerResult.failed err) ipfs atf mtf).message =
      some "NFT minted successfully with automated rewards" ∧
    (mint_nft store aid true true (LedgerResult.failed err) ipfs atf mtf).nft_transaction_hash
      = none ∧
    (mint_nft store aid true true (LedgerResult.failed err) ipfs atf mtf).total_tokens_earned
      = 0 ∧
    mint_genomic_nft true (LedgerResult.failed err) =
      Except.ok { success := false, transaction_hash := none, token_id := none,
                  gas_used := none, block_number := none, error := some err } ∧
    (∀ ledger, mint_genomic_nft false ledger =
      Except.error "No private key configured for transactions") := by
  have hmint : ∀ ledger, mint_genomic_nft false ledger =
      Except.error "No private key configured for transactions" := by
    intro ledger
    rfl
  refine ⟨?_, ?_, ?_, ?_, rfl, hmint⟩ <;>
    simp [mint_nft, hget, hready, process_nft_minting_with_rewards,
      process_nft_minting_with_blockchain, mint_genomic_nft]

/-- Witness for C5: the eligible demonstration store with a reverted
transaction. -/
theorem mint_failure_amended_witness :
    (mint_nft demo_store5 "a1" true true (LedgerResult.failed "revert") "ipfs://Qm"
      (Except.ok "0xa") (Except.ok "0xb")).status = 200 ∧
    (mint_nft demo_store5 "a1" true true (LedgerResult.failed "revert") "ipfs://Qm"
      (Except.ok "0xa") (Except.ok "0xb")).message =
      some "NFT minted successfully with automated rewards" ∧
    (mint_nft demo_store5 "a1" true true (LedgerResult.failed "revert") "ipfs://Qm"
      (Except.ok "0xa") (Except.ok "0xb")).nft_transaction_hash = none ∧
    (mint_nft demo_store5 "a1" true true (LedgerResult.failed "revert") "ipfs://Qm"
      (Except.ok "0xa") (Except.ok "0xb")).total_tokens_earned = 0 ∧
    mint_genomic_nft true (LedgerResult.failed "revert") =
      Except.ok { success := false, transaction_hash := none, token_id := none,
                  gas_used := none, block_number := none, error := some "revert" } ∧
    (∀ ledger, mint_genomic_nft false ledger =
      Except.error "No private key configured for transactions") :=
  mint_failure_amended demo_store5 "a1" demo_result_high "revert" "ipfs://Qm"
    (Except.ok "0xa") (Except.ok "0xb") rfl rfl

/-! ## Claim C6 -/

/-- Claim C6: the validator accepts exactly the strings whose
characters all belong, case-insensitively, to the 16-symbol alphabet,
returning the upper-cased sequence; one character outside it and the
whole string is rejected with the validation error. -/
theorem validator_accepts_alphabet (v : List Char) :
    ((∀ c ∈ v, c.toUpper ∈ valid_chars) →
      validate_sequence v = Except.ok (v.map Char.toUpper)) ∧
    ((∃ c ∈ v, c.toUpper ∉ valid_chars) →
      validate_sequence v = Except.error "Invalid DNA sequence characters") := by
  constructor
  · intro h
    unfold validate_sequence
    rw [if_pos]
    rw [List.all_eq_true]
    intro c hc
    exact decide_eq_true (h c hc)
  · rintro ⟨c, hc, hcu⟩
    unfold validate_sequence
    rw [if_neg]
    intro hall
    rw [List.all_eq_true] at hall
    exact hcu (of_decide_eq_true (hall c hc))

/-- Witness for C6: the full lower-cased alphabet is accepted and
upper-cased; a string with an X is rejected. -/
theorem validator_accepts_alphabet_witness :
    validate_sequence "atcgnryswkmbdhv-".toList =
      Except.ok "ATCGNRYSWKMBDHV-".toList ∧
    validate_sequence "ATCGX".toList =
      Except.error "Invalid DNA sequence characters" :=
  ⟨(validator_accepts_alphabet "atcgnryswkmbdhv-".toList).1 (by decide),
   (validator_accepts_alphabet "ATCGX".toList).2 ⟨'X', by decide, by decide⟩⟩

/-! ## Claim C7 -/

/-- Claim C7: list_analyses returns the stored results ordered by
descending creation timestamp -- the output is sorted for ts_desc and
is the [offset : offset+limit] slice of the descending sort, which is
a permutation of the stored values -- and an offset at or past the end
yields the empty list rather than an error. -/
theorem list_analyses_sorted_desc_slice (store : AnalysisStore) (limit offset : Nat) :
    List.Sorted ts_desc (list_analyses store limit offset) ∧
    (list_analyses store limit offset).Sublist
      ((dict_values store).insertionSort ts_desc) ∧
    ((dict_values store).insertionSort ts_desc).Perm (dict_values store) ∧
    list_analyses store limit offset =
      (((dict_values store).insertionSort ts_desc).drop offset).take limit ∧
    ((dict_values store).length ≤ offset → list_analyses store limit offset = []) := by
  have hsorted : List.Sorted ts_desc ((dict_values store).insertionSort ts_desc) :=
    List.sorted_insertionSort ts_desc (dict_values store)
  have hsub : (list_analyses store limit offset).Sublist
      ((dict_values store).insertionSort ts_desc) := by
    unfold list_analyses
    exact (List.take_sublist _ _).trans (List.drop_sublist _ _)
  refine ⟨List.Pairwise.sublist hsub hsorted, hsub,
    List.perm_insertionSort ts_desc (dict_values store), rfl, ?_⟩
  intro h
  unfold list_analyses
  rw [List.drop_eq_nil_of_le, List.take_nil]
  rw [(List.perm_insertionSort ts_desc (dict_values store)).length_eq]
  exact h

/-- Three results with increasing creation timestamps, stored oldest
first. -/
def demo_result_t1 : AnalysisResult :=
  { demo_result_high with analysis_id := "a1", timestamp := 1 }

def demo_result_t2 : AnalysisResult :=
  { demo_result_high with analysis_id := "a2", timestamp := 2 }

def demo_result_t3 : AnalysisResult :=
  { demo_result_high with analysis_id := "a3", timestamp := 3 }

def demo_store7 : AnalysisStore :=
  [("a1", demo_result_t1), ("a2", demo_result_t2), ("a3", demo_result_t3)]

/-- Witness for C7: after inserting three records with increasing
timestamps the listing returns them newest first, and an offset past
the end yields the empty list. -/
theorem list_analyses_sorted_desc_slice_witness :
    list_analyses demo_store7 10 0 = [demo_result_t3, demo_result_t2, demo_result_t1] ∧
    list_analyses demo_store7 10 5 = [] :=
  ⟨rfl, (list_analyses_sorted_desc_slice demo_store7 10 5).2.2.2.2 (by decide)⟩

/-! ## Claim C8 -/

/-- Claim C8: on every successful mint with rewards,
total_tokens_earned equals the sum of the reward amounts of exactly
the legs that succeeded (a failed leg returns no reward_amount and
contributes the .get default 0), and a reward-leg failure never rolls
back the mint: minting_successful stays true whatever the two
transfer outcomes. -/
theorem total_tokens_sum_of_succeeded_legs (score : ℚ) (tx ipfs : String)
    (tid gas blk : Nat) (atf mtf : Except String String) :
    (process_nft_minting_with_rewards score true (LedgerResult.confirmed tx tid gas blk)
      ipfs atf mtf).minting_successful = true ∧
    ∃ rs, (process_nft_minting_with_rewards score true (LedgerResult.confirmed tx tid gas blk)
        ipfs atf mtf).rewards = some rs ∧
      rs.total_tokens_earned =
        (if rs.analysis_reward.success = true then rs.analysis_reward.reward_amount.getD 0
         else 0) +
        (if rs.mint_reward.success = true then rs.mint_reward.reward_amount.getD 0 else 0) ∧
      (rs.analysis_reward.success = false → rs.analysis_reward.reward_amount = none) ∧
      (rs.mint_reward.success = false → rs.mint_reward.reward_amount = none) := by
  cases atf <;> cases mtf <;>
    simp [process_nft_minting_with_rewards, process_nft_minting_with_blockchain,
      mint_genomic_nft, distribute_analysis_reward, distribute_nft_mint_reward]

/-- Witness for C8: a successful mint whose mint-reward transfer
failed; the total counts only the analysis leg. -/
theorem total_tokens_sum_of_succeeded_legs_witness :
    (process_nft_minting_with_rewards 70 true (LedgerResult.confirmed "0xtx" 1 21000 100)
      "ipfs://Qm" (Except.ok "0xa") (Except.error "transfer failed")).minting_successful
      = true ∧
    ∃ rs, (process_nft_minting_with_rewards 70 true (LedgerResult.confirmed "0xtx" 1 21000 100)
        "ipfs://Qm" (Except.ok "0xa") (Except.error "transfer failed")).rewards = some rs ∧
      rs.total_tokens_earned =
        (if rs.analysis_reward.success = true then rs.analysis_reward.reward_amount.getD 0
         else 0) +
        (if rs.mint_reward.success = true then rs.mint_reward.reward_amount.getD 0 else 0) ∧
      (rs.analysis_reward.success = false → rs.analysis_reward.reward_amount = none) ∧
      (rs.mint_reward.success = false → rs.mint_reward.reward_amount = none) :=
  total_tokens_sum_of_succeeded_legs 70 "0xtx" "ipfs://Qm" 1 21000 100
    (Except.ok "0xa") (Except.error "transfer failed")

/-! ## Claim C9 -/

/-- Claim C9: the mint-with-rewards flow hands the 0-100 overall score
to distribute_analysis_reward, whose bonus test is score > 0.8; every
score eligible for minting (at least 60) trivially clears 0.8, so on a
successful analysis-reward transfer the analysis reward is always the
base 10 plus the quality bonus 20, that is 30 tokens. -/
theorem analysis_reward_always_30_when_eligible (score : ℚ) (hscore : 60 ≤ score)
    (tx ipfs aTx : String) (tid gas blk : Nat) (mtf : Except String String) :
    (4:ℚ)/5 < score ∧
    (distribute_analysis_reward (Except.ok aTx) score).reward_amount = some 30 ∧
    (distribute_analysis_reward (Except.ok aTx) score).quality_bonus = some 20 ∧
    ((process_nft_minting_with_rewards score true (LedgerResult.confirmed tx tid gas blk)
        ipfs (Except.ok aTx) mtf).rewards.map
      (fun rs => rs.analysis_reward.reward_amount)) = some (some 30) := by
  have h45 : (4:ℚ)/5 < score := lt_of_lt_of_le (by norm_num) hscore
  refine ⟨h45, ?_, ?_, ?_⟩ <;>
    simp [distribute_analysis_reward, process_nft_minting_with_rewards,
      process_nft_minting_with_blockchain, mint_genomic_nft,
      REWARD_ANALYSIS, REWARD_QUALITY_BONUS, h45] <;>
    norm_num

/-- Witness for C9: a threshold-level score of exactly 60 earns the
full 30-token analysis reward. -/
theorem analysis_reward_always_30_when_eligible_witness :
    (4:ℚ)/5 < 60 ∧
    (distribute_analysis_reward (Except.ok "0xa") 60).reward_amount = some 30 ∧
    (distribute_analysis_reward (Except.ok "0xa") 60).quality_bonus = some 20 ∧
    ((process_nft_minting_with_rewards 60 true (LedgerResult.confirmed "0xtx" 1 21000 100)
        "ipfs://Qm" (Except.ok "0xa") (Except.ok "0xb")).rewards.map
      (fun rs => rs.analysis_reward.reward_amount)) = some (some 30) :=
  analysis_reward_always_30_when_eligible 60 (by norm_num) "0xtx" "ipfs://Qm" "0xa"
    1 21000 100 (Except.ok "0xb")

/-! ## Claim C10 -/

/-- Claim C10: get_token_balance is total and absorbs every failure of
the underlying balanceOf call into a 0 result, so a caller cannot
tell a failed query from a genuinely zero balance: the failing ledger
and the ledger that answers 0 produce the same value. -/
theorem token_balance_zero_on_failure (ledger : String → Except String Nat)
    (address : String) (e : String) (h : ledger address = Except.error e) :
    get_token_balance ledger address = 0 ∧
    get_token_balance ledger address =
      get_token_balance (fun _ => Except.ok 0) address := by
  constructor <;> simp [get_token_balance, h]

/-- Witness for C10: a ledger whose RPC is down reports balance 0. -/
theorem token_balance_zero_on_failure_witness :
    get_token_balance (fun _ => Except.error "RPC down") "0xabc" = 0 ∧
    get_token_balance (fun _ => Except.error "RPC down") "0xabc" =
      get_token_balance (fun _ => Except.ok 0) "0xabc" :=
  token_balance_zero_on_failure (fun _ => Except.error "RPC down") "0xabc" "RPC down" rfl
